import Mathlib

/-!
Verification of the pi-thermo control core (`src/thermostat.py`).

A shallow embedding of the thermostat control logic:

* `RelayControl` models the class of the same name (`relay_state`,
  `last_state_change`, `turn_on`, `turn_off`, `time_in_state`); the GPIO
  side effects are environment actions and are not part of the state.
* `EnergyState` models the three energy-saving fields of
  `ThermostatController` (`energy_saving_active`, `energy_saving_override`,
  `override_start_time`), and `check_energy_saving_mode` /
  `set_energy_saving_override` model the methods of those names.
* `control_heating` models `ThermostatController.control_heating`; in
  addition to the updated state it reports which of the spec's control
  decisions (`TurnOn`, `TurnOff`, `NoChange`, `NoReading`) the tick took,
  read off from which relay call (if any) the code performs.
* `heating_pair_rate`, `scan_heating_window` and `calculate_heating_rates`
  model the heating half of `ThermalAnalysis._calculate_rates`.
* `get_status` models the truthiness-guarded rounding of
  `ThermostatController.get_status`.

Python floats and timestamps are modelled as rationals (`ℚ`); Python
`round(x, 1)` is modelled as rounding to the nearest tenth.
-/

/-- The configuration fields read by the control logic
(`config["target_temp_f"]`, `config["hysteresis"]`,
`config["relay_min_on_time"]`, `config["relay_min_off_time"]`,
`config.get("energy_saving_min_temp", 60.0)`,
`config.get("energy_saving_override_duration", 3600)`). -/
structure Config where
  target_temp_f : ℚ
  hysteresis : ℚ
  relay_min_on_time : ℚ
  relay_min_off_time : ℚ
  energy_saving_min_temp : ℚ
  energy_saving_override_duration : ℚ
  deriving DecidableEq, Repr

/-- State of `RelayControl`: the boolean `relay_state` and the timestamp
`last_state_change` of the most recent accepted transition. -/
structure RelayControl where
  relay_state : Bool
  last_state_change : ℚ
  deriving DecidableEq, Repr

/-- Method `RelayControl.turn_on`: guarded by `if not self.relay_state`; on an
already-on relay nothing happens, otherwise the state becomes on and
`last_state_change` is reset to the current time. -/
def RelayControl.turn_on (r : RelayControl) (now : ℚ) : RelayControl :=
  if r.relay_state then r
  else { relay_state := true, last_state_change := now }

/-- Method `RelayControl.turn_off`: guarded by `if self.relay_state`; on an
already-off relay nothing happens, otherwise the state becomes off and
`last_state_change` is reset to the current time. -/
def RelayControl.turn_off (r : RelayControl) (now : ℚ) : RelayControl :=
  if r.relay_state then { relay_state := false, last_state_change := now }
  else r

/-- Method `RelayControl.get_state`. -/
def RelayControl.get_state (r : RelayControl) : Bool :=
  r.relay_state

/-- Method `RelayControl.time_in_state`: `time.time() - self.last_state_change`. -/
def RelayControl.time_in_state (r : RelayControl) (now : ℚ) : ℚ :=
  now - r.last_state_change

/-- The energy-saving fields of `ThermostatController`:
`energy_saving_active`, `energy_saving_override`, `override_start_time`. -/
structure EnergyState where
  energy_saving_active : Bool
  energy_saving_override : Bool
  override_start_time : ℚ
  deriving DecidableEq, Repr

/-- Method `ThermostatController.check_energy_saving_mode`, as a function of the
config, the current time, the cached outside temperature
(`self.outside_temp`, `none` when never fetched) and the current inside
temperature (`self.current_temp_f`).  Returns the updated energy-saving
state together with the method's boolean return value. -/
def check_energy_saving_mode (cfg : Config) (now : ℚ)
    (outside_temp current_temp_f : Option ℚ) (es : EnergyState) :
    EnergyState × Bool :=
  -- `if self.energy_saving_override: if now - start >= duration: clear`
  let es1 :=
    if es.energy_saving_override ∧
        cfg.energy_saving_override_duration ≤ now - es.override_start_time then
      { es with energy_saving_override := false }
    else es
  -- `if self.energy_saving_override: self.energy_saving_active = False; return False`
  if es1.energy_saving_override then
    ({ es1 with energy_saving_active := false }, false)
  else
    -- `if self.outside_temp is not None and self.current_temp_f is not None:`
    match outside_temp, current_temp_f with
    | some o, some i =>
        if i ≤ o then ({ es1 with energy_saving_active := true }, true)
        else ({ es1 with energy_saving_active := false }, false)
    | _, _ => (es1, false)

/-- Method `ThermostatController.set_energy_saving_override`: arms the override,
records the activation time and forces `energy_saving_active` off. -/
def set_energy_saving_override (now : ℚ) (es : EnergyState) : EnergyState :=
  { es with
    energy_saving_override := true
    override_start_time := now
    energy_saving_active := false }

/-- The control decisions named in the spec; `control_heating` reports the
one corresponding to the relay call it performs (or the early return it
takes). -/
inductive ControlDecision where
  | TurnOn
  | TurnOff
  | NoChange
  | NoReading
  deriving DecidableEq, Repr

/-- The controller state touched by one control tick: the relay record and
the energy-saving fields. -/
structure ControllerState where
  relay : RelayControl
  es : EnergyState
  deriving DecidableEq, Repr

/-- Method `ThermostatController.control_heating`: the early `NoReading` return on
a missing temperature, the call to `check_energy_saving_mode`, the
energy-saving branch (floor `energy_saving_min_temp`, restore threshold
`min_temp + 1.0`, dwell gates `min_off` / `min_on`) and the normal
hysteresis branch (`target ± hysteresis`, same dwell gates). -/
def control_heating (cfg : Config) (now : ℚ)
    (current_temp_f outside_temp : Option ℚ) (s : ControllerState) :
    ControllerState × ControlDecision :=
  match current_temp_f with
  | none => (s, ControlDecision.NoReading)
  | some temp =>
    let esr := check_energy_saving_mode cfg now outside_temp (some temp) s.es
    let es := esr.1
    if esr.2 then
      -- energy-saving branch
      if temp ≤ cfg.energy_saving_min_temp ∧ s.relay.get_state = false then
        if cfg.relay_min_off_time ≤ s.relay.time_in_state now then
          ({ relay := s.relay.turn_on now, es := es }, ControlDecision.TurnOn)
        else
          ({ relay := s.relay, es := es }, ControlDecision.NoChange)
      else if s.relay.get_state = true ∧ cfg.energy_saving_min_temp + 1 ≤ temp then
        if cfg.relay_min_on_time ≤ s.relay.time_in_state now then
          ({ relay := s.relay.turn_off now, es := es }, ControlDecision.TurnOff)
        else
          ({ relay := s.relay, es := es }, ControlDecision.NoChange)
      else
        ({ relay := s.relay, es := es }, ControlDecision.NoChange)
    else
      -- normal hysteresis branch
      if s.relay.get_state then
        if cfg.target_temp_f + cfg.hysteresis ≤ temp ∧
            cfg.relay_min_on_time ≤ s.relay.time_in_state now then
          ({ relay := s.relay.turn_off now, es := es }, ControlDecision.TurnOff)
        else
          ({ relay := s.relay, es := es }, ControlDecision.NoChange)
      else
        if temp ≤ cfg.target_temp_f - cfg.hysteresis ∧
            cfg.relay_min_off_time ≤ s.relay.time_in_state now then
          ({ relay := s.relay.turn_on now, es := es }, ControlDecision.TurnOn)
        else
          ({ relay := s.relay, es := es }, ControlDecision.NoChange)

/-- The inputs one tick of the control loop feeds into `control_heating`:
the current time, the sensor reading (absent on a failed read) and the
cached outside temperature. -/
structure TickInput where
  now : ℚ
  temp : Option ℚ
  outside : Option ℚ
  deriving DecidableEq, Repr

/-- One tick of the control loop: the state part of `control_heating`. -/
def tick (cfg : Config) (i : TickInput) (s : ControllerState) : ControllerState :=
  (control_heating cfg i.now i.temp i.outside s).1

/-- Run a sequence of control-loop ticks from an initial state. -/
def runTicks (cfg : Config) (s0 : ControllerState) (is : List TickInput) :
    ControllerState :=
  is.foldl (fun s i => tick cfg i s) s0

/-- The operations of `ThermostatController` that touch the energy-saving
fields: a control-loop tick, and the web API's override activation
(`/api/energy-saving` POST calling `set_energy_saving_override`). -/
inductive EsOp where
  | tickOp (now : ℚ) (temp outside : Option ℚ)
  | overrideOp (now : ℚ)
  deriving DecidableEq, Repr

/-- Apply one controller operation to the controller state. -/
def applyOp (cfg : Config) (s : ControllerState) : EsOp → ControllerState
  | EsOp.tickOp now temp outside => (control_heating cfg now temp outside s).1
  | EsOp.overrideOp now => { s with es := set_energy_saving_override now s.es }

/-- The mutual-exclusion property on the energy-saving fields: the override
flag and the suppression-active flag are never both set. -/
def EsExclusive (es : EnergyState) : Prop :=
  ¬(es.energy_saving_override = true ∧ es.energy_saving_active = true)

instance : DecidablePred EsExclusive := fun es => by
  unfold EsExclusive; infer_instance

/-- One buffered reading of `ThermalAnalysis.temperature_data`:
`{"timestamp": now, "temperature_f": temp_f, "heating_on": heating_on}`. -/
structure Reading where
  timestamp : ℚ
  temperature_f : ℚ
  heating_on : Bool
  deriving DecidableEq, Repr

/-- The body of the inner `j` loop of the heating half of
`ThermalAnalysis._calculate_rates` for a fixed pair of readings: the Python
truthiness guard `if data[j]["temperature_f"] and data[i]["temperature_f"]`,
the qualification test `temp_change > 0.5 and time_change > 60`, and the
plausibility test `300 < rate < 3600` (strict on both sides).  Returns the
rate appended for this pair, or `none` when the loop continues. -/
def heating_pair_rate (di dj : Reading) : Option ℚ :=
  if dj.temperature_f ≠ 0 ∧ di.temperature_f ≠ 0 then
    let temp_change := dj.temperature_f - di.temperature_f
    let time_change := dj.timestamp - di.timestamp
    if 1/2 < temp_change ∧ 60 < time_change then
      let rate := time_change / temp_change
      if 300 < rate ∧ rate < 3600 then some rate else none
    else none
  else none

/-- The inner `for j in range(i, min(i+10, len(data)))` scan of the heating
half of `_calculate_rates`: the first pair the loop appends a rate for
(the `break` fires only inside the plausibility test, so pairs whose rate
falls outside the open band are skipped and scanning continues). -/
def scan_heating_window (data : List Reading) (i : ℕ) : Option ℚ :=
  (List.range' i (min (i + 10) data.length - i)).findSome? fun j =>
    match data.get? i, data.get? j with
    | some di, some dj => heating_pair_rate di dj
    | _, _ => none

/-- The heating half of `ThermalAnalysis._calculate_rates`: for each index
`i` in `range(1, len(data))` with a heating-start transition
(`not data[i-1]["heating_on"] and data[i]["heating_on"]`), the rate the
window scan appends, in order. -/
def calculate_heating_rates (data : List Reading) : List ℚ :=
  (List.range' 1 (data.length - 1)).filterMap fun i =>
    match data.get? (i - 1), data.get? i with
    | some a, some b =>
        if a.heating_on = false ∧ b.heating_on = true then
          scan_heating_window data i
        else none
    | _, _ => none

/-- The averaging step of `_calculate_rates`:
`heating_rate_seconds_per_degree` is published as the arithmetic mean of
the accepted rates once at least 3 exist, and stays `None` before that. -/
def heating_rate_estimate (rates : List ℚ) : Option ℚ :=
  if 3 ≤ rates.length then some (rates.sum / rates.length) else none

/-- Python `round(x, 1)` modelled as rounding `x` to the nearest tenth. -/
def round1 (x : ℚ) : ℚ :=
  (round (x * 10) : ℚ) / 10

/-- Python truthiness of an optional float: `None` and `0.0` are falsy,
every other float is truthy. -/
def pyTruthy (v : Option ℚ) : Bool :=
  match v with
  | none => false
  | some x => decide (x ≠ 0)

/-- The fields of the `ThermostatController.get_status` snapshot built with
the pattern `round(value, 1) if value else None`. -/
structure StatusSnapshot where
  current_temp_f : Option ℚ
  humidity : Option ℚ
  deriving DecidableEq, Repr

/-- Method `ThermostatController.get_status`, restricted to the truthiness-guarded
rounded fields: `round(self.current_temp_f, 1) if self.current_temp_f else
None` and `round(self.current_humidity, 1) if self.current_humidity else
None`. -/
def get_status (current_temp_f current_humidity : Option ℚ) : StatusSnapshot :=
  { current_temp_f :=
      if pyTruthy current_temp_f then current_temp_f.map round1 else none
    humidity :=
      if pyTruthy current_humidity then current_humidity.map round1 else none }

/-- The normal-mode (non-energy-saving) branch of `control_heating`,
written out as a standalone decision function of the relay record. -/
def normal_decision (cfg : Config) (now temp : ℚ) (r : RelayControl) :
    ControlDecision :=
  if r.relay_state then
    if cfg.target_temp_f + cfg.hysteresis ≤ temp ∧
        cfg.relay_min_on_time ≤ r.time_in_state now then
      ControlDecision.TurnOff
    else ControlDecision.NoChange
  else
    if temp ≤ cfg.target_temp_f - cfg.hysteresis ∧
        cfg.relay_min_off_time ≤ r.time_in_state now then
      ControlDecision.TurnOn
    else ControlDecision.NoChange

/-- A sample buffer with three heating-start transitions, each followed
600 s later by a reading 2°F warmer (rate exactly 300 s/degree), the
synthetic scenario of the spec's rate-estimator test. -/
def heatingDataExact300 : List Reading :=
  [⟨0, 60, false⟩, ⟨10, 60, true⟩, ⟨610, 62, true⟩,
   ⟨620, 58, false⟩, ⟨630, 58, true⟩, ⟨1230, 60, true⟩,
   ⟨1240, 56, false⟩, ⟨1250, 56, true⟩, ⟨1850, 58, true⟩]

/-- A sample buffer with three heating-start transitions, each followed
610 s later by a reading 2°F warmer (rate 305 s/degree, strictly inside
the plausible band). -/
def heatingDataRate305 : List Reading :=
  [⟨0, 60, false⟩, ⟨10, 60, true⟩, ⟨620, 62, true⟩,
   ⟨630, 58, false⟩, ⟨640, 58, true⟩, ⟨1250, 60, true⟩,
   ⟨1260, 56, false⟩, ⟨1270, 56, true⟩, ⟨1880, 58, true⟩]

/-! Theorems settling the claims about the embedded control core. -/

/-- Claim C7: on a tick with no sensor reading (`current_temp_f is None`),
`control_heating` returns immediately: the decision is `NoReading` and the
whole controller state — relay on/off flag, dwell clock and energy-saving
fields — is exactly unchanged. -/
theorem c7_no_reading_no_change (cfg : Config) (now : ℚ)
    (outside : Option ℚ) (s : ControllerState) :
    control_heating cfg now none outside s = (s, ControlDecision.NoReading) :=
  rfl

/-- Claim C9: applying the relay state it already holds is a no-op.  A second
`turn_on` on an already-on relay returns the record unchanged (so
`last_state_change`, hence the dwell clock, is not reset), and symmetrically
for `turn_off` on an already-off relay. -/
theorem c9_apply_idempotent (r : RelayControl) (t1 t2 : ℚ) :
    ((r.turn_on t1).turn_on t2 = r.turn_on t1 ∧
      (r.turn_on t1).relay_state = true) ∧
    ((r.turn_off t1).turn_off t2 = r.turn_off t1 ∧
      (r.turn_off t1).relay_state = false) := by
  unfold RelayControl.turn_on RelayControl.turn_off
  rcases r with ⟨b, t⟩
  cases b <;> simp

/-- Claim C10: in the `get_status` snapshot, presence of a temperature or
humidity value is tested by Python truthiness, so a stored value of exactly
`0.0` is reported as absent (`None`), as is a missing value; every nonzero
stored value is reported rounded to one decimal place. -/
theorem c10_status_truthiness (x : ℚ) (v : Option ℚ) (hx : x ≠ 0) :
    (get_status (some 0) v).current_temp_f = none ∧
    (get_status v (some 0)).humidity = none ∧
    (get_status none v).current_temp_f = none ∧
    (get_status v none).humidity = none ∧
    (get_status (some x) v).current_temp_f = some (round1 x) ∧
    (get_status v (some x)).humidity = some (round1 x) := by
  simp [get_status, pyTruthy, hx]

/-- Witness for claim C10: a stored reading of exactly `0.0` is reported as
`None` while `123.45` is reported as `123.5`. -/
theorem c10_status_truthiness_witness :
    (get_status (some 0) none).current_temp_f = none ∧
    (get_status (some (12345/100)) none).current_temp_f = some (247/2) := by
  refine ⟨(c10_status_truthiness 1 none one_ne_zero).1, ?_⟩
  have h := (c10_status_truthiness (12345/100) none (by norm_num)).2.2.2.2.1
  rw [h]
  norm_num [round1, round_eq]

/-- Claim C5: activating the override at time `T` makes every evaluation at a
time strictly before `T + override_duration` return `false` (no
suppression) and force `energy_saving_active` off, regardless of the
temperatures; an evaluation at or after `T + override_duration` clears the
override and behaves exactly like an evaluation of the cleared state
(normal evaluation resumes); and re-activating the override re-arms the
timer from the new call time, independent of all previous state. -/
theorem c5_override_timing (cfg : Config) (T now : ℚ) (o i : Option ℚ)
    (es es2 : EnergyState) :
    (now < T + cfg.energy_saving_override_duration →
      check_energy_saving_mode cfg now o i (set_energy_saving_override T es) =
        ({ energy_saving_active := false, energy_saving_override := true,
           override_start_time := T }, false)) ∧
    (T + cfg.energy_saving_override_duration ≤ now →
      check_energy_saving_mode cfg now o i (set_energy_saving_override T es) =
        check_energy_saving_mode cfg now o i
          { energy_saving_active := false, energy_saving_override := false,
            override_start_time := T }) ∧
    (set_energy_saving_override now es = set_energy_saving_override now es2 ∧
      (set_energy_saving_override now es).override_start_time = now) := by
  refine ⟨fun h => ?_, fun h => ?_, rfl, rfl⟩
  · have hlt : ¬ cfg.energy_saving_override_duration ≤ now - T := by linarith
    simp [check_energy_saving_mode, set_energy_saving_override, hlt]
  · have hge : cfg.energy_saving_override_duration ≤ now - T := by linarith
    simp [check_energy_saving_mode, set_energy_saving_override, hge]

/-- Witness for claim C5: with the default one-hour override armed at `T = 0`,
the evaluation at `now = 3599` ignores an outside temperature of 80°F
against an inside temperature of 70°F, and at `now = 3600` the override is
cleared and suppression is evaluated again (becoming active). -/
theorem c5_override_timing_witness :
    check_energy_saving_mode ⟨72, 1, 2, 2, 60, 3600⟩ 3599 (some 80) (some 70)
        (set_energy_saving_override 0 ⟨true, false, 0⟩) =
      ({ energy_saving_active := false, energy_saving_override := true,
         override_start_time := 0 }, false) ∧
    check_energy_saving_mode ⟨72, 1, 2, 2, 60, 3600⟩ 3600 (some 80) (some 70)
        (set_energy_saving_override 0 ⟨true, false, 0⟩) =
      check_energy_saving_mode ⟨72, 1, 2, 2, 60, 3600⟩ 3600 (some 80) (some 70)
        { energy_saving_active := false, energy_saving_override := false,
          override_start_time := 0 } := by
  constructor
  · exact (c5_override_timing ⟨72, 1, 2, 2, 60, 3600⟩ 0 3599 (some 80) (some 70)
      ⟨true, false, 0⟩ ⟨true, false, 0⟩).1 (by norm_num)
  · exact (c5_override_timing ⟨72, 1, 2, 2, 60, 3600⟩ 0 3600 (some 80) (some 70)
      ⟨true, false, 0⟩ ⟨true, false, 0⟩).2.1 (by norm_num)

/-- The energy-saving evaluation always leaves a state in which the
override flag and the suppression-active flag are not both set: the
override branch forces `active` off, and the non-override branches only
ever set `active` with the override flag already cleared. -/
theorem check_energy_saving_mode_exclusive (cfg : Config) (now : ℚ)
    (o i : Option ℚ) (es : EnergyState) :
    EsExclusive (check_energy_saving_mode cfg now o i es).1 := by
  unfold check_energy_saving_mode EsExclusive
  by_cases hov : (es.energy_saving_override ∧
      cfg.energy_saving_override_duration ≤ now - es.override_start_time)
  · simp only [hov, if_true]
    rcases o with _ | ov <;> rcases i with _ | iv <;> simp
    by_cases hc : iv ≤ ov <;> simp [hc]
  · simp only [hov, if_false]
    by_cases h2 : es.energy_saving_override = true
    · simp [h2]
    · simp only [h2, Bool.false_eq_true, if_false]
      rcases o with _ | ov <;> rcases i with _ | iv <;> simp [h2]
      by_cases hc : iv ≤ ov <;> simp [hc, h2]

/-- One controller operation preserves the mutual exclusion of the
override and suppression-active flags. -/
theorem applyOp_exclusive (cfg : Config) (s : ControllerState) (op : EsOp)
    (h : EsExclusive s.es) : EsExclusive ((applyOp cfg s op).es) := by
  cases op with
  | overrideOp now =>
      simp [applyOp, set_energy_saving_override, EsExclusive]
  | tickOp now temp outside =>
      cases temp with
      | none => exact h
      | some t =>
          have hx := check_energy_saving_mode_exclusive cfg now outside (some t) s.es
          simp only [applyOp, control_heating]
          split_ifs <;> simpa using hx

/-- Claim C8: from any controller state in which the override flag and the
suppression-active flag are not both set, no sequence of operations —
control-loop ticks with arbitrary times and (possibly missing)
temperatures, interleaved with override activations — can reach a state
with `energy_saving_override` and `energy_saving_active` both true:
an active override always forces `active` to false. -/
theorem c8_override_active_exclusive (cfg : Config) (s0 : ControllerState)
    (ops : List EsOp) (h0 : EsExclusive s0.es) :
    EsExclusive ((ops.foldl (applyOp cfg) s0).es) := by
  induction ops generalizing s0 with
  | nil => exact h0
  | cons op rest ih =>
      exact ih (applyOp cfg s0 op) (applyOp_exclusive cfg s0 op h0)

/-- Witness for claim C8: a concrete run from the initial state (both flags
false) through an override activation, a suppressing tick, a tick with a
missing outside temperature and a second override never sets both flags. -/
theorem c8_override_active_exclusive_witness :
    EsExclusive (([EsOp.overrideOp 0, EsOp.tickOp 5000 (some 65) (some 80),
        EsOp.tickOp 5005 (some 65) none, EsOp.overrideOp 5010].foldl
          (applyOp ⟨72, 1, 2, 2, 60, 3600⟩)
          ⟨⟨false, 0⟩, ⟨false, false, 0⟩⟩).es) :=
  c8_override_active_exclusive ⟨72, 1, 2, 2, 60, 3600⟩
    ⟨⟨false, 0⟩, ⟨false, false, 0⟩⟩ _ (by simp [EsExclusive])

/-- Claim C2: in normal mode (the energy-saving evaluation returns `false`)
with both dwell gates satisfied, the tick's decision with the relay OFF is
`TurnOn` exactly when `temp ≤ target - hysteresis` (closed boundary), and
with the relay ON it is `TurnOff` exactly when `temp ≥ target +
hysteresis` (closed boundary). -/
theorem c2_hysteresis_boundaries (cfg : Config) (now temp : ℚ)
    (outside : Option ℚ) (s : ControllerState)
    (hns : (check_energy_saving_mode cfg now outside (some temp) s.es).2 = false)
    (hon : cfg.relay_min_on_time ≤ s.relay.time_in_state now)
    (hoff : cfg.relay_min_off_time ≤ s.relay.time_in_state now) :
    (s.relay.relay_state = false →
      ((control_heating cfg now (some temp) outside s).2 = ControlDecision.TurnOn ↔
        temp ≤ cfg.target_temp_f - cfg.hysteresis)) ∧
    (s.relay.relay_state = true →
      ((control_heating cfg now (some temp) outside s).2 = ControlDecision.TurnOff ↔
        cfg.target_temp_f + cfg.hysteresis ≤ temp)) := by
  constructor <;> intro hrel <;>
    simp only [control_heating, RelayControl.get_state, hns, hrel,
      Bool.false_eq_true, if_false, if_true, hon, hoff, and_true] <;>
    split_ifs with hc <;> simp [hc]

/-- Witness for claim C2: the spec's boundary example — target 72°F,
hysteresis 1°F, relay OFF for 10 s with 2 s minimum dwell, reading exactly
71.0°F — yields `TurnOn`. -/
theorem c2_hysteresis_boundaries_witness :
    (control_heating ⟨72, 1, 2, 2, 60, 3600⟩ 10 (some 71) none
        ⟨⟨false, 0⟩, ⟨false, false, 0⟩⟩).2 = ControlDecision.TurnOn := by
  have h := (c2_hysteresis_boundaries ⟨72, 1, 2, 2, 60, 3600⟩ 10 71 none
      ⟨⟨false, 0⟩, ⟨false, false, 0⟩⟩
      (by norm_num [check_energy_saving_mode])
      (by norm_num [RelayControl.time_in_state])
      (by norm_num [RelayControl.time_in_state])).1 rfl
  exact h.mpr (by norm_num)

/-- Claim C6: in energy-saving mode (the evaluation returns `true`) with both
dwell gates satisfied, the decision is `TurnOn` exactly when the relay is
OFF and the temperature is at or below `energy_saving_min_temp`, and
`TurnOff` exactly when the relay is ON and the temperature is at or above
`energy_saving_min_temp + 1.0`; moreover the configured target temperature
and hysteresis are not consulted: replacing them by any other values leaves
the whole tick result unchanged. -/
theorem c6_energy_saving_floor (cfg : Config) (now temp : ℚ)
    (outside : Option ℚ) (s : ControllerState)
    (hes : (check_energy_saving_mode cfg now outside (some temp) s.es).2 = true)
    (hon : cfg.relay_min_on_time ≤ s.relay.time_in_state now)
    (hoff : cfg.relay_min_off_time ≤ s.relay.time_in_state now) :
    ((control_heating cfg now (some temp) outside s).2 = ControlDecision.TurnOn ↔
      (s.relay.relay_state = false ∧ temp ≤ cfg.energy_saving_min_temp)) ∧
    ((control_heating cfg now (some temp) outside s).2 = ControlDecision.TurnOff ↔
      (s.relay.relay_state = true ∧ cfg.energy_saving_min_temp + 1 ≤ temp)) ∧
    (∀ t hy : ℚ,
      control_heating { cfg with target_temp_f := t, hysteresis := hy } now
          (some temp) outside s =
        control_heating cfg now (some temp) outside s) := by
  have hes2 : ∀ t hy : ℚ,
      check_energy_saving_mode { cfg with target_temp_f := t, hysteresis := hy }
        now outside (some temp) s.es =
      check_energy_saving_mode cfg now outside (some temp) s.es := fun t hy => rfl
  refine ⟨?_, ?_, fun t hy => ?_⟩
  · simp only [control_heating, RelayControl.get_state, hes, if_true, hon, hoff]
    rcases hb : s.relay.relay_state with _ | _ <;>
      by_cases hc : temp ≤ cfg.energy_saving_min_temp <;>
      by_cases hc2 : cfg.energy_saving_min_temp + 1 ≤ temp <;>
      simp [hb, hc, hc2, hon, hoff]
  · simp only [control_heating, RelayControl.get_state, hes, if_true, hon, hoff]
    rcases hb : s.relay.relay_state with _ | _ <;>
      by_cases hc : temp ≤ cfg.energy_saving_min_temp <;>
      by_cases hc2 : cfg.energy_saving_min_temp + 1 ≤ temp <;>
      simp [hb, hc, hc2, hon, hoff]
  · simp only [control_heating, hes2, hes, if_true]

/-- Witness for claim C6: the spec's floor example — minimum 60°F, relay OFF,
inside 59.9°F, energy saving active (outside 80°F ≥ inside), dwell
satisfied — yields `TurnOn`; with the relay ON and inside 61.0°F it yields
`TurnOff`. -/
theorem c6_energy_saving_floor_witness :
    (control_heating ⟨72, 1, 2, 2, 60, 3600⟩ 10 (some (599/10)) (some 80)
        ⟨⟨false, 0⟩, ⟨false, false, 0⟩⟩).2 = ControlDecision.TurnOn ∧
    (control_heating ⟨72, 1, 2, 2, 60, 3600⟩ 10 (some 61) (some 80)
        ⟨⟨true, 0⟩, ⟨false, false, 0⟩⟩).2 = ControlDecision.TurnOff := by
  constructor
  · exact ((c6_energy_saving_floor ⟨72, 1, 2, 2, 60, 3600⟩ 10 (599/10) (some 80)
      ⟨⟨false, 0⟩, ⟨false, false, 0⟩⟩
      (by norm_num [check_energy_saving_mode])
      (by norm_num [RelayControl.time_in_state])
      (by norm_num [RelayControl.time_in_state])).1).mpr ⟨rfl, by norm_num⟩
  · exact ((c6_energy_saving_floor ⟨72, 1, 2, 2, 60, 3600⟩ 10 61 (some 80)
      ⟨⟨true, 0⟩, ⟨false, false, 0⟩⟩
      (by norm_num [check_energy_saving_mode])
      (by norm_num [RelayControl.time_in_state])
      (by norm_num [RelayControl.time_in_state])).2.1).mpr ⟨rfl, by norm_num⟩


/-- Claim C4 counterexample: with suppression previously active
(`energy_saving_active = true`), the relay OFF and an inside reading of
65°F, an unknown outside temperature preserves the `active` flag — but the
tick turns the heating ON (normal-mode logic), whereas the very same tick
with suppression actually evaluated (outside 80°F known) makes no change.
So the heating decision is *not* taken under the preserved suppression
state: it defaults to normal heating logic. -/
theorem c4_counterexample :
    control_heating ⟨72, 1, 2, 2, 60, 3600⟩ 10 (some 65) none
        ⟨⟨false, 0⟩, ⟨true, false, 0⟩⟩ =
      (⟨⟨true, 10⟩, ⟨true, false, 0⟩⟩, ControlDecision.TurnOn) ∧
    control_heating ⟨72, 1, 2, 2, 60, 3600⟩ 10 (some 65) (some 80)
        ⟨⟨false, 0⟩, ⟨true, false, 0⟩⟩ =
      (⟨⟨false, 0⟩, ⟨true, false, 0⟩⟩, ControlDecision.NoChange) := by
  constructor <;>
    norm_num [control_heating, check_energy_saving_mode, RelayControl.get_state,
      RelayControl.time_in_state, RelayControl.turn_on]

/-- Claim C4, amended: on a tick where the outside or the inside temperature
is unknown and no override is armed, the energy-saving evaluation leaves
the stored state (including the previous `active` flag) unchanged but
*returns false*; consequently, when the missing value is the outside
temperature, the tick's heating decision follows the normal-mode
hysteresis rules regardless of the preserved flag, and the energy-saving
fields pass through unchanged. -/
theorem c4_missing_temp_amended (cfg : Config) (now : ℚ) (o i : Option ℚ)
    (es : EnergyState) (hmiss : o = none ∨ i = none)
    (hov : es.energy_saving_override = false) :
    check_energy_saving_mode cfg now o i es = (es, false) ∧
    (∀ (temp : ℚ) (r : RelayControl),
      (control_heating cfg now (some temp) none ⟨r, es⟩).2 =
        normal_decision cfg now temp r ∧
      (control_heating cfg now (some temp) none ⟨r, es⟩).1.es = es) := by
  have hcheck : ∀ o2 i2 : Option ℚ, (o2 = none ∨ i2 = none) →
      check_energy_saving_mode cfg now o2 i2 es = (es, false) := by
    intro o2 i2 hm
    unfold check_energy_saving_mode
    simp only [hov, Bool.false_eq_true, false_and, if_false]
    rcases hm with hm | hm
    · subst hm
      rcases i2 with _ | iv <;> simp [hov]
    · subst hm
      rcases o2 with _ | ov <;> simp [hov]
  refine ⟨hcheck o i hmiss, fun temp r => ?_⟩
  have h2 := hcheck none (some temp) (Or.inl rfl)
  constructor <;>
    · simp only [control_heating, normal_decision, RelayControl.get_state, h2,
        Bool.false_eq_true, if_false]
      split_ifs <;> simp_all

/-- Witness for claim C4 as amended: with suppression previously active and the
outside temperature missing, the evaluation hands back the state unchanged
with result `false`, and a 65°F tick takes the normal-mode decision
(`TurnOn`, since 65 ≤ 72 − 1 and the dwell gate holds). -/
theorem c4_missing_temp_amended_witness :
    check_energy_saving_mode ⟨72, 1, 2, 2, 60, 3600⟩ 10 none (some 65)
        ⟨true, false, 0⟩ = (⟨true, false, 0⟩, false) ∧
    (control_heating ⟨72, 1, 2, 2, 60, 3600⟩ 10 (some 65) none
        ⟨⟨false, 0⟩, ⟨true, false, 0⟩⟩).2 =
      normal_decision ⟨72, 1, 2, 2, 60, 3600⟩ 10 65 ⟨false, 0⟩ := by
  have h := c4_missing_temp_amended ⟨72, 1, 2, 2, 60, 3600⟩ 10 none (some 65)
    ⟨true, false, 0⟩ (Or.inl rfl) rfl
  exact ⟨h.1, (h.2 65 ⟨false, 0⟩).1⟩

/-- One control tick either leaves the relay record (on/off flag and dwell
clock) exactly unchanged — in particular when a hysteresis or floor
condition holds but its dwell gate fails, the decision is deferred with no
state change — or flips the relay, resetting the dwell clock to the tick
time, and then the time since the last transition was at least
`relay_min_on_time` (for ON→OFF) resp. `relay_min_off_time` (for OFF→ON). -/
theorem tick_relay_step (cfg : Config) (i : TickInput) (s : ControllerState) :
    (tick cfg i s).relay = s.relay ∨
    ((tick cfg i s).relay.relay_state = !s.relay.relay_state ∧
      (tick cfg i s).relay.last_state_change = i.now ∧
      (if s.relay.relay_state then cfg.relay_min_on_time
       else cfg.relay_min_off_time) ≤ i.now - s.relay.last_state_change) := by
  unfold tick control_heating
  rcases i with ⟨now, temp, outside⟩
  rcases temp with _ | t
  · exact Or.inl rfl
  simp only
  rcases hb : s.relay.relay_state with _ | _ <;>
    split_ifs with h1 h2 h3 h4 h5 h6 h7 h8 <;>
    simp_all [RelayControl.turn_on, RelayControl.turn_off, RelayControl.get_state,
      RelayControl.time_in_state]

/-- Running one more tick of a trace applies `tick` to the state reached by
the prefix. -/
theorem runTicks_take_succ (cfg : Config) (s0 : ControllerState)
    (is : List TickInput) (k : ℕ) (hk : k < is.length) :
    runTicks cfg s0 (is.take (k + 1)) =
      tick cfg (is.get ⟨k, hk⟩) (runTicks cfg s0 (is.take k)) := by
  unfold runTicks
  rw [List.take_succ, List.getElem?_eq_getElem hk]
  rw [Option.toList_some, List.foldl_append]
  rw [List.get_eq_getElem]
  rfl

/-- Claim C1: along any sequence of control-loop ticks (normal or
energy-saving mode, arbitrary times and readings), each tick either leaves
the relay record — on/off flag and dwell clock — exactly unchanged (a
decision whose dwell gate fails is deferred, not applied), or flips the
relay; and every flip happens at least `relay_min_on_time` after the last
transition when going ON→OFF, resp. `relay_min_off_time` when going
OFF→ON, with the dwell clock reset to the flip time so later dwell checks
measure from this transition. -/
theorem c1_dwell_respected (cfg : Config) (s0 : ControllerState)
    (is : List TickInput) (k : ℕ) (hk : k < is.length) :
    (runTicks cfg s0 (is.take (k + 1))).relay =
        (runTicks cfg s0 (is.take k)).relay ∨
    ((runTicks cfg s0 (is.take (k + 1))).relay.relay_state =
        !(runTicks cfg s0 (is.take k)).relay.relay_state ∧
      (runTicks cfg s0 (is.take (k + 1))).relay.last_state_change =
        (is.get ⟨k, hk⟩).now ∧
      (if (runTicks cfg s0 (is.take k)).relay.relay_state then
          cfg.relay_min_on_time
        else cfg.relay_min_off_time) ≤
        (is.get ⟨k, hk⟩).now -
          (runTicks cfg s0 (is.take k)).relay.last_state_change) := by
  rw [runTicks_take_succ cfg s0 is k hk]
  exact tick_relay_step cfg (is.get ⟨k, hk⟩) (runTicks cfg s0 (is.take k))

/-- Witness for claim C1: a two-tick trace — a 71°F reading at `t = 10`
flips the relay ON after 10 s ≥ 2 s minimum off-time, and a 73°F reading
at `t = 11` is deferred because only 1 s < 2 s minimum on-time has
elapsed. -/
theorem c1_dwell_respected_witness :
    ((runTicks ⟨72, 1, 2, 2, 60, 3600⟩ ⟨⟨false, 0⟩, ⟨false, false, 0⟩⟩
        ([⟨10, some 71, none⟩, ⟨11, some 73, none⟩].take 2)).relay =
      (runTicks ⟨72, 1, 2, 2, 60, 3600⟩ ⟨⟨false, 0⟩, ⟨false, false, 0⟩⟩
        ([⟨10, some 71, none⟩, ⟨11, some 73, none⟩].take 1)).relay ∨
    ((runTicks ⟨72, 1, 2, 2, 60, 3600⟩ ⟨⟨false, 0⟩, ⟨false, false, 0⟩⟩
        ([⟨10, some 71, none⟩, ⟨11, some 73, none⟩].take 2)).relay.relay_state =
        !(runTicks ⟨72, 1, 2, 2, 60, 3600⟩ ⟨⟨false, 0⟩, ⟨false, false, 0⟩⟩
          ([⟨10, some 71, none⟩, ⟨11, some 73, none⟩].take 1)).relay.relay_state ∧
      (runTicks ⟨72, 1, 2, 2, 60, 3600⟩ ⟨⟨false, 0⟩, ⟨false, false, 0⟩⟩
        ([⟨10, some 71, none⟩, ⟨11, some 73, none⟩].take 2)).relay.last_state_change =
        (([⟨10, some 71, none⟩, ⟨11, some 73, none⟩] : List TickInput).get
          ⟨1, by norm_num⟩).now ∧
      (if (runTicks ⟨72, 1, 2, 2, 60, 3600⟩ ⟨⟨false, 0⟩, ⟨false, false, 0⟩⟩
          ([⟨10, some 71, none⟩, ⟨11, some 73, none⟩].take 1)).relay.relay_state then
          (⟨72, 1, 2, 2, 60, 3600⟩ : Config).relay_min_on_time
        else (⟨72, 1, 2, 2, 60, 3600⟩ : Config).relay_min_off_time) ≤
        (([⟨10, some 71, none⟩, ⟨11, some 73, none⟩] : List TickInput).get
          ⟨1, by norm_num⟩).now -
          (runTicks ⟨72, 1, 2, 2, 60, 3600⟩ ⟨⟨false, 0⟩, ⟨false, false, 0⟩⟩
            ([⟨10, some 71, none⟩, ⟨11, some 73, none⟩].take 1)).relay.last_state_change)) :=
  c1_dwell_respected ⟨72, 1, 2, 2, 60, 3600⟩ ⟨⟨false, 0⟩, ⟨false, false, 0⟩⟩
    [⟨10, some 71, none⟩, ⟨11, some 73, none⟩] 1 (by norm_num)



/-- Claim C3 counterexample: the plausibility test is strict
(`300 < rate < 3600`), not the closed range `[300, 3600]`.  The spec's
synthetic window — a heating start at 60°F followed 600 s later by 62°F,
rate `600/2 = 300` exactly, which qualifies on delta (2 > 0.5) and elapsed
time (600 > 60) and lies in the claimed closed range — is *rejected*, and
a buffer with three such windows accepts no rate at all, so
`heating_rate_seconds_per_degree` stays `None` instead of ≈ 300. -/
theorem c3_counterexample :
    heating_pair_rate ⟨10, 60, true⟩ ⟨610, 62, true⟩ = none ∧
    ((610 : ℚ) - 10) / (62 - 60) = 300 ∧
    (1/2 : ℚ) < 62 - 60 ∧ (60 : ℚ) < 610 - 10 ∧
    (300 : ℚ) ≤ 300 ∧ (300 : ℚ) ≤ 3600 ∧
    calculate_heating_rates heatingDataExact300 = [] ∧
    heating_rate_estimate (calculate_heating_rates heatingDataExact300) =
      none := by
  refine ⟨by norm_num [heating_pair_rate], by norm_num, by norm_num, by norm_num,
    le_refl _, by norm_num, ?_, ?_⟩ <;>
    norm_num [calculate_heating_rates, heatingDataExact300, scan_heating_window,
      heating_pair_rate, List.filterMap, List.findSome?, heating_rate_estimate]

/-- Claim C3, amended: for a forward pair that qualifies on truthy
temperatures, a delta above 0.5°F and more than 60 s elapsed, the rate
`elapsed/delta` is recorded if and only if it lies strictly inside the
open range `(300, 3600)`; a rate of exactly 300 is rejected, and a
rejected pair does not stop the window scan (the pair 10 s later with rate
305 is then accepted).  With three windows of 2°F gained over 610 s, the
published `heating_rate_seconds_per_degree` is exactly 305. -/
theorem c3_rate_window_amended (di dj : Reading)
    (h1 : dj.temperature_f ≠ 0) (h2 : di.temperature_f ≠ 0)
    (hd : 1/2 < dj.temperature_f - di.temperature_f)
    (ht : 60 < dj.timestamp - di.timestamp) :
    (heating_pair_rate di dj =
      if 300 < (dj.timestamp - di.timestamp) /
            (dj.temperature_f - di.temperature_f) ∧
          (dj.timestamp - di.timestamp) /
            (dj.temperature_f - di.temperature_f) < 3600 then
        some ((dj.timestamp - di.timestamp) /
          (dj.temperature_f - di.temperature_f))
      else none) ∧
    ((dj.timestamp - di.timestamp) / (dj.temperature_f - di.temperature_f) =
        300 → heating_pair_rate di dj = none) ∧
    scan_heating_window
      [⟨-5, 60, false⟩, ⟨0, 60, true⟩, ⟨600, 62, true⟩, ⟨610, 62, true⟩] 1 =
      some 305 ∧
    heating_rate_estimate (calculate_heating_rates heatingDataRate305) =
      some 305 := by
  have hmain : heating_pair_rate di dj =
      if 300 < (dj.timestamp - di.timestamp) /
            (dj.temperature_f - di.temperature_f) ∧
          (dj.timestamp - di.timestamp) /
            (dj.temperature_f - di.temperature_f) < 3600 then
        some ((dj.timestamp - di.timestamp) /
          (dj.temperature_f - di.temperature_f))
      else none := by
    unfold heating_pair_rate
    simp [h1, h2, hd, ht]
    intro hcon
    exact absurd hcon (not_le.mpr (by linarith))
  refine ⟨hmain, fun h300 => ?_, ?_, ?_⟩
  · rw [hmain, h300]
    norm_num
  · norm_num [scan_heating_window, heating_pair_rate, List.findSome?]
  · norm_num [calculate_heating_rates, heatingDataRate305, scan_heating_window,
      heating_pair_rate, List.filterMap, List.findSome?, heating_rate_estimate]

/-- Witness for claim C3 as amended: the exact-300 window pair (60°F, then 62°F
600 s later) is rejected. -/
theorem c3_rate_window_amended_witness :
    heating_pair_rate ⟨10, 60, true⟩ ⟨610, 62, true⟩ = none :=
  (c3_rate_window_amended ⟨10, 60, true⟩ ⟨610, 62, true⟩ (by norm_num)
    (by norm_num) (by norm_num) (by norm_num)).2.1 (by norm_num)
